import Mathlib

/-!
Verification of the risk-metrics pipeline of the Fin-Alpha repository.

The computational core lives in `src/risk.py` (`StockRiskAnalyzer` and the
module-level convenience functions); the presentation layer's substring
matching lives in `src/ui.py` (`set_result_text`).  Prices, returns and all
derived statistics are modelled as exact rationals (`ℚ`).  The one operation
that has no exact rational counterpart is the floating-point square root used
by `Series.std()` (square root of the sample variance) and by `np.sqrt(252)`;
it is abstracted as an explicit function parameter `sq : ℚ → ℚ`, passed to
every definition that needs it, and theorems assume of it only what they
need (for instance `sq 0 = 0`).  Fallible steps return `Except`.
-/

set_option allowUnsafeReducibility true

attribute [semireducible] Rat.add Rat.sub Rat.mul Rat.inv Nat.gcd

namespace FinAlpha

/-- Error taxonomy of the analyzer.  In `src/risk.py` the two validation
failures are `ValueError`s distinguished by their message
(`"No data found for this ticker"` raised in `_fetch_stock_data`,
`"Insufficient data for analysis (need at least 30 days)"` raised in
`_calculate_returns`); the inductive reifies the two kinds. -/
inductive AnalysisError where
  | noData
  | insufficientData
deriving DecidableEq

/-- Mirror of the `RiskMetrics` dataclass of `src/risk.py` (lines 12-23). -/
structure RiskMetrics where
  ticker : String
  current_price : ℚ
  volatility : ℚ
  var_95 : ℚ
  var_99 : ℚ
  max_drawdown : ℚ
  sharpe_ratio : ℚ
  risk_level : String
  risk_color : String
deriving DecidableEq

/-- The `self.risk_thresholds` dict set in `StockRiskAnalyzer.__init__`:
`{'high': 0.3, 'medium': 0.15}`. -/
def risk_thresholds (key : String) : ℚ :=
  if key = "high" then 3 / 10
  else if key = "medium" then 15 / 100
  else 0

/-- Mirror of `StockRiskAnalyzer._determine_risk_level` (risk.py lines
119-126): strict comparisons against the two thresholds, evaluated
top-down, returning the `(risk_level, risk_color)` pair. -/
def determine_risk_level (volatility : ℚ) : String × String :=
  if volatility > risk_thresholds "high" then ("HIGH", "high")
  else if volatility > risk_thresholds "medium" then ("MEDIUM", "medium")
  else ("LOW", "low")

/-- Mirror of `data["Close"].pct_change().dropna()` (risk.py line 76):
simple daily returns `r[i] = price[i] / price[i-1] - 1` for each pair of
consecutive closes (the leading `NaN` produced by `pct_change` is dropped,
so the result has one element fewer than the input). -/
def pct_change : List ℚ → List ℚ
  | a :: b :: rest => (b / a - 1) :: pct_change (b :: rest)
  | _ => []

/-- Mirror of `Series.mean()`: the arithmetic mean. -/
def mean (rs : List ℚ) : ℚ := rs.sum / rs.length

/-- Mirror of `Series.std()` squared, i.e. the sample variance with `ddof=1`
(the pandas default): `Σ (x - mean)² / (n - 1)`.  `Series.std()` itself is
`sq (sampleVar rs)` for the square-root model `sq`. -/
def sampleVar (rs : List ℚ) : ℚ :=
  ((rs.map (fun x => (x - mean rs) ^ 2)).sum) / ((rs.length : ℚ) - 1)

/-- Mirror of `np.percentile(a, q)` with its default linear interpolation:
sort ascending, take the virtual position `q/100 · (n-1)`, and linearly
interpolate between the two neighbouring order statistics (the upper index
is clipped to the last element, matching numpy). -/
def percentile (rs : List ℚ) (q : ℚ) : ℚ :=
  let s := rs.insertionSort (· ≤ ·)
  let pos : ℚ := q / 100 * ((s.length : ℚ) - 1)
  let lo : ℕ := (Rat.floor pos).toNat
  let a := s.getD lo 0
  let b := s.getD (lo + 1) a
  a + (pos - (lo : ℚ)) * (b - a)

/-- Helper for `cumprod`: running product with accumulator. -/
def cumprodAux (acc : ℚ) : List ℚ → List ℚ
  | [] => []
  | x :: xs => (acc * x) :: cumprodAux (acc * x) xs

/-- Mirror of `Series.cumprod()` (risk.py line 94). -/
def cumprod (xs : List ℚ) : List ℚ := cumprodAux 1 xs

/-- Helper for `cummax`: running maximum with accumulator. -/
def cummaxAux (acc : ℚ) : List ℚ → List ℚ
  | [] => []
  | x :: xs => (max acc x) :: cummaxAux (max acc x) xs

/-- Mirror of `Series.cummax()` (risk.py line 95). -/
def cummax : List ℚ → List ℚ
  | [] => []
  | x :: xs => x :: cummaxAux x xs

/-- Mirror of `drawdown = (peak - cumulative_returns) / peak` (risk.py line
96) applied to a growth series `g` with `peak = cummax g`. -/
def drawdowns (g : List ℚ) : List ℚ :=
  List.zipWith (fun pk c => (pk - c) / pk) (cummax g) g

/-- Mirror of `Series.max()` on a series that is nonempty on every code
path that reaches it (the `[]` case is an unreachable default). -/
def seriesMax : List ℚ → ℚ
  | [] => 0
  | x :: xs => List.foldl max x xs

/-- Model of Python's `str.upper()`: uppercase each character.  (Core's
`String.toUpper` is definitionally opaque to the kernel, so the character
map is spelled out.) -/
def toUpperStr (s : String) : String := String.mk (s.data.map Char.toUpper)

/-- Mirror of `StockRiskAnalyzer._fetch_stock_data` (risk.py lines 65-72)
after the network call: the emptiness check on the fetched series. -/
def fetch_stock_data (prices : List ℚ) : Except AnalysisError (List ℚ) :=
  if prices.isEmpty then .error .noData else .ok prices

/-- Mirror of `StockRiskAnalyzer._calculate_returns` (risk.py lines 74-81):
compute the daily returns and fail if fewer than 30 remain. -/
def calculate_returns (data : List ℚ) : Except AnalysisError (List ℚ) :=
  let returns := pct_change data
  if returns.length < 30 then .error .insufficientData else .ok returns

/-- Mirror of `StockRiskAnalyzer._calculate_risk_metrics` (risk.py lines
83-117).  `sq` models the floating-point square root (see module header):
`returns.std()` is `sq (sampleVar returns)` and `np.sqrt(252)` is `sq 252`.
As in the source, the annualized volatility is computed twice — once for
the `volatility` field (line 87) and once as `annual_volatility` for the
Sharpe denominator (line 101) — by the same expression. -/
def calculate_risk_metrics (sq : ℚ → ℚ) (ticker : String)
    (data returns : List ℚ) : RiskMetrics :=
  let current_price := data.getLastD 0
  let volatility := sq (sampleVar returns) * sq 252
  let var_95 := percentile returns 5
  let var_99 := percentile returns 1
  let cumulative_returns := cumprod (returns.map (fun r => r + 1))
  let peak := cummax cumulative_returns
  let drawdown := List.zipWith (fun pk c => (pk - c) / pk) peak cumulative_returns
  let max_drawdown := seriesMax drawdown
  let annual_return := mean returns * 252
  let annual_volatility := sq (sampleVar returns) * sq 252
  let sharpe_ratio := if annual_volatility ≠ 0 then annual_return / annual_volatility else 0
  ⟨toUpperStr ticker, current_price, volatility, var_95, var_99, max_drawdown,
    sharpe_ratio, (determine_risk_level volatility).1, (determine_risk_level volatility).2⟩

/-- Mirror of `StockRiskAnalyzer.analyze_stock` (risk.py lines 35-63) on an
already-fetched price series: emptiness check, return computation with its
length check, then the metric computation.  The `except` clause of the
source re-raises with the message prefix `"Analysis failed: "`; the error
kind is preserved (see `analysis_failed_message`). -/
def analyze_stock (sq : ℚ → ℚ) (ticker : String) (prices : List ℚ) :
    Except AnalysisError RiskMetrics :=
  match fetch_stock_data prices with
  | .error e => .error e
  | .ok data =>
    match calculate_returns data with
    | .error e => .error e
    | .ok returns => .ok (calculate_risk_metrics sq ticker data returns)

/-- Left-pad a digit string with zeros to the requested width (used for the
fractional part of fixed-point rendering). -/
def padZeros (width : ℕ) (s : String) : String :=
  String.mk (List.replicate (width - s.length) '0') ++ s

/-- Model of Python's fixed-point float formatting `format(x, ".Nf")`:
round to `N` decimal places and render with exactly `N` fractional digits.
Python rounds the underlying binary float to nearest (ties to even); on
exact rationals this is modelled as round-to-nearest (`⌊y + 1/2⌋`), which
agrees except on exact ties, which no claim depends on. -/
def formatFixed (prec : ℕ) (x : ℚ) : String :=
  let scaled : ℤ := Rat.floor (x * (10 : ℚ) ^ prec + 1 / 2)
  let sign := if scaled < 0 then "-" else ""
  let a := scaled.natAbs
  if prec = 0 then sign ++ toString a
  else sign ++ toString (a / 10 ^ prec) ++ "." ++ padZeros prec (toString (a % 10 ^ prec))

/-- Model of Python's percent formatting `format(x, ".N%")`: multiply by
100, render fixed-point with `N` decimals, append `%`. -/
def formatPercent (prec : ℕ) (x : ℚ) : String :=
  formatFixed prec (x * 100) ++ "%"

/-- The `color_map` dict lookup with default `""` in
`StockRiskAnalyzer.format_results` (risk.py lines 130-135). -/
def color_map (c : String) : String :=
  if c = "high" then "[color=#FF5252]"
  else if c = "medium" then "[color=#FFC107]"
  else if c = "low" then "[color=#4CAF50]"
  else ""

/-- Mirror of `StockRiskAnalyzer.format_results` (risk.py lines 128-148):
the f-string, written as explicit concatenation.  Note that the color
markup tag is interpolated between `"Risk Level: "` and the level keyword. -/
def format_results (m : RiskMetrics) : String :=
  let color_tag := color_map m.risk_color
  let end_tag := if color_tag = "" then "" else "[/color]"
  "ANALYSIS RESULTS FOR " ++ m.ticker ++
  "\n\nCurrent Price: $" ++ formatFixed 2 m.current_price ++
  "\n\nRISK METRICS:" ++
  "\n• Annual Volatility: " ++ formatPercent 1 m.volatility ++
  "\n• Value at Risk (95%): " ++ formatPercent 2 m.var_95 ++ " daily" ++
  "\n• Value at Risk (99%): " ++ formatPercent 2 m.var_99 ++ " daily" ++
  "\n• Maximum Drawdown: " ++ formatPercent 1 m.max_drawdown ++
  "\n• Sharpe Ratio: " ++ formatFixed 2 m.sharpe_ratio ++
  "\n\nRisk Level: " ++ color_tag ++ m.risk_level ++ end_tag

/-- Mirror of `StockRiskAnalyzer._get_risk_interpretation` (risk.py lines
185-192): the interpretations dict lookup with its default. -/
def get_risk_interpretation (risk_level : String) : String :=
  if risk_level = "LOW" then
    "This stock has relatively low volatility and is considered less risky."
  else if risk_level = "MEDIUM" then
    "This stock has moderate volatility. Consider your risk tolerance."
  else if risk_level = "HIGH" then
    "This stock is highly volatile and risky. Only suitable for risk-tolerant investors."
  else "Risk level assessment unavailable."

/-- Mirror of `StockRiskAnalyzer.format_results_detailed` (risk.py lines
150-183). -/
def format_results_detailed (m : RiskMetrics) : String :=
  "DETAILED ANALYSIS FOR " ++ m.ticker ++
  "\n\nCurrent Price: $" ++ formatFixed 2 m.current_price ++
  "\n\n🔍 RISK METRICS EXPLAINED:" ++
  "\n\nAnnual Volatility: " ++ formatPercent 1 m.volatility ++
  "\n   Measures how much the stock price fluctuates" ++
  "\n\nValue at Risk (95%): " ++ formatPercent 2 m.var_95 ++ " daily" ++
  "\n   Maximum expected daily loss 95% of the time" ++
  "\n\nValue at Risk (99%): " ++ formatPercent 2 m.var_99 ++ " daily" ++
  "\n   Maximum expected daily loss 99% of the time" ++
  "\n\nMaximum Drawdown: " ++ formatPercent 1 m.max_drawdown ++
  "\n   Largest peak-to-trough decline" ++
  "\n\nSharpe Ratio: " ++ formatFixed 2 m.sharpe_ratio ++
  "\n   Risk-adjusted return (higher is better)" ++
  "\n\nRisk Level: " ++ m.risk_level ++
  "\n\n" ++ get_risk_interpretation m.risk_level

/-- The message text of each error kind as raised in `src/risk.py`. -/
def error_message : AnalysisError → String
  | .noData => "No data found for this ticker"
  | .insufficientData => "Insufficient data for analysis (need at least 30 days)"

/-- The message of the wrapping `Exception` re-raised by
`analyze_stock`'s `except` clause (risk.py line 63). -/
def analysis_failed_message (e : AnalysisError) : String :=
  "Analysis failed: " ++ error_message e

/-- Mirror of the module-level `get_formatted_analysis` (risk.py lines
202-213): total at the public boundary — every analysis failure is caught
and rendered as the `"ERROR ANALYZING ..."` string instead of propagating. -/
def get_formatted_analysis (sq : ℚ → ℚ) (ticker : String) (prices : List ℚ)
    (detailed : Bool) : String :=
  match analyze_stock sq ticker prices with
  | .ok metrics =>
    if detailed then format_results_detailed metrics else format_results metrics
  | .error e =>
    ("ERROR ANALYZING " ++ toUpperStr ticker) ++
    ("\n\n" ++ analysis_failed_message e ++
      "\n\nPlease check the ticker symbol and try again.")

/-- Model of Python's substring test `pat in s`. -/
def containsSub (pat s : String) : Bool := decide (pat.data <:+: s.data)

/-- Mirror of the risk-level substring dispatch in `ui.py`
`set_result_text` (lines 412-421): the simplified text the UI displays,
selected by searching the formatted result for the literal substrings
`"Risk Level: HIGH"` / `"Risk Level: MEDIUM"` / `"Risk Level: LOW"`, falling
back to the full text when none matches. -/
def set_result_text_simple (text : String) : String :=
  if containsSub "Risk Level: HIGH" text then "Risk Level: HIGH"
  else if containsSub "Risk Level: MEDIUM" text then "Risk Level: MEDIUM"
  else if containsSub "Risk Level: LOW" text then "Risk Level: LOW"
  else text

/-! Supporting lemmas. -/

/-- The daily-return series has one element fewer than the price series
(`pct_change` produces a leading `NaN` which `dropna` removes). -/
theorem pct_change_length (prices : List ℚ) :
    (pct_change prices).length = prices.length - 1 := by
  match prices with
  | [] => rfl
  | [a] => rfl
  | a :: b :: rest =>
    have ih := pct_change_length (b :: rest)
    simp only [pct_change, List.length_cons] at ih ⊢
    omega

/-! Claim theorems. -/

/-- C1: for every volatility value `v`, `_determine_risk_level` returns
`HIGH` iff `v > 0.30`, `MEDIUM` iff `0.15 < v ≤ 0.30`, and `LOW` iff
`v ≤ 0.15`; in particular the boundary values `0.30` and `0.15` map to the
lower bracket (`MEDIUM` and `LOW` respectively). -/
theorem risk_level_brackets (v : ℚ) :
    ((determine_risk_level v).1 = "HIGH" ↔ 3 / 10 < v) ∧
    ((determine_risk_level v).1 = "MEDIUM" ↔ 15 / 100 < v ∧ v ≤ 3 / 10) ∧
    ((determine_risk_level v).1 = "LOW" ↔ v ≤ 15 / 100) := by
  have hh : risk_thresholds "high" = 3 / 10 := by decide
  have hm : risk_thresholds "medium" = 15 / 100 := by decide
  unfold determine_risk_level
  rw [hh, hm]
  split_ifs with h1 h2
  · exact ⟨⟨fun _ => h1, fun _ => rfl⟩,
      ⟨fun h => absurd h (by decide), fun h => absurd h1 (not_lt.mpr h.2)⟩,
      ⟨fun h => absurd h (by decide),
        fun h => absurd h1 (not_lt.mpr (le_trans h (by norm_num)))⟩⟩
  · exact ⟨⟨fun h => absurd h (by decide), fun h => absurd h h1⟩,
      ⟨fun _ => ⟨h2, not_lt.mp h1⟩, fun _ => rfl⟩,
      ⟨fun h => absurd h (by decide), fun h => absurd h2 (not_lt.mpr h)⟩⟩
  · exact ⟨⟨fun h => absurd h (by decide), fun h => absurd h h1⟩,
      ⟨fun h => absurd h (by decide), fun h => absurd h.1 h2⟩,
      ⟨fun _ => not_lt.mp h2, fun _ => rfl⟩⟩

/-- C2: a price series of exactly 30 points (29 returns) fails the
30-return minimum with the insufficient-data error, while one of 31 or
more points (30 or more returns) passes the length check and the analysis
succeeds. -/
theorem analyze_stock_min_length (sq : ℚ → ℚ) (ticker : String)
    (prices : List ℚ) :
    (prices.length = 30 →
      analyze_stock sq ticker prices = .error .insufficientData) ∧
    (31 ≤ prices.length → ∃ m, analyze_stock sq ticker prices = .ok m) := by
  constructor
  · intro h30
    have hne : prices.isEmpty = false := by
      cases prices with
      | nil => simp at h30
      | cons a l => rfl
    have hlen : (pct_change prices).length = 29 := by
      rw [pct_change_length, h30]
    simp [analyze_stock, fetch_stock_data, calculate_returns, hne, hlen]
  · intro h31
    have hne : prices.isEmpty = false := by
      cases prices with
      | nil => simp at h31
      | cons a l => rfl
    have hlen : ¬ (pct_change prices).length < 30 := by
      rw [pct_change_length]; omega
    exact ⟨calculate_risk_metrics sq ticker prices (pct_change prices),
      by simp [analyze_stock, fetch_stock_data, calculate_returns, hne, hlen]⟩

/-- Witness for C2: a constant 30-point series fails, a constant 31-point
series succeeds. -/
theorem analyze_stock_min_length_witness :
    analyze_stock id "T" (List.replicate 30 (1 : ℚ)) = .error .insufficientData ∧
    ∃ m, analyze_stock id "T" (List.replicate 31 (1 : ℚ)) = .ok m :=
  ⟨(analyze_stock_min_length id "T" _).1 (by simp),
   (analyze_stock_min_length id "T" _).2 (by simp)⟩

/-- C3: for an empty fetched price series, `analyze_stock` fails with the
no-data error.  The statement holds for every square-root model `sq`, so
the failure is independent of (raised before) any return or volatility
computation, matching the source order where `_fetch_stock_data` raises
before `_calculate_returns` or `_calculate_risk_metrics` run. -/
theorem analyze_stock_empty_noData (sq : ℚ → ℚ) (ticker : String) :
    analyze_stock sq ticker [] = .error .noData := rfl

/-- C4: whenever the annualized sample volatility is nonzero, the reported
Sharpe ratio is `mean(returns) · 252` divided by that annualized sample
standard deviation, and the denominator is exactly the value reported in
the `volatility` field of the result. -/
theorem sharpe_uses_reported_volatility (sq : ℚ → ℚ) (ticker : String)
    (data rs : List ℚ) (h : sq (sampleVar rs) * sq 252 ≠ 0) :
    (calculate_risk_metrics sq ticker data rs).sharpe_ratio
      = (mean rs * 252) / (sq (sampleVar rs) * sq 252) ∧
    (calculate_risk_metrics sq ticker data rs).volatility
      = sq (sampleVar rs) * sq 252 := by
  simp [calculate_risk_metrics, h]

/-- Witness for C4 at the concrete return series `[0, 1]` (sample variance
`1/2`), with the identity as the square-root model. -/
theorem sharpe_uses_reported_volatility_witness :
    id (sampleVar [0, 1]) * id 252 ≠ 0 ∧
    ((calculate_risk_metrics id "T" [] [0, 1]).sharpe_ratio
      = (mean [0, 1] * 252) / (id (sampleVar [0, 1]) * id 252) ∧
     (calculate_risk_metrics id "T" [] [0, 1]).volatility
      = id (sampleVar [0, 1]) * id 252) :=
  ⟨by decide, sharpe_uses_reported_volatility id "T" [] [0, 1] (by decide)⟩

/-- For a strictly-positive price series every growth factor `1 + r` of
the derived return series is strictly positive. -/
theorem pct_change_one_add_pos (prices : List ℚ)
    (hpos : ∀ x ∈ prices, 0 < x) : ∀ r ∈ pct_change prices, 0 < 1 + r := by
  match prices with
  | [] => intro r hr; simp [pct_change] at hr
  | [a] => intro r hr; simp [pct_change] at hr
  | a :: b :: rest =>
    intro r hr
    rw [pct_change] at hr
    rcases List.mem_cons.mp hr with h | h
    · subst h
      have ha : 0 < a := hpos a (by simp)
      have hb : 0 < b := hpos b (by simp)
      have hba : (0 : ℚ) < b / a := div_pos hb ha
      linarith
    · exact pct_change_one_add_pos (b :: rest)
        (fun x hx => hpos x (List.mem_cons_of_mem a hx)) r h

/-- A running product of positive factors from a positive seed stays
positive. -/
theorem cumprodAux_pos (xs : List ℚ) : ∀ (acc : ℚ), 0 < acc →
    (∀ x ∈ xs, 0 < x) → ∀ y ∈ cumprodAux acc xs, 0 < y := by
  induction xs with
  | nil => intro acc _ _ y hy; simp [cumprodAux] at hy
  | cons x xs ih =>
    intro acc hacc hall y hy
    rw [cumprodAux] at hy
    rcases List.mem_cons.mp hy with h | h
    · subst h; exact mul_pos hacc (hall x (by simp))
    · exact ih (acc * x) (mul_pos hacc (hall x (by simp)))
        (fun z hz => hall z (by simp [hz])) y h

/-- Core drawdown bound: pairing a positive series with its running
maximum (seeded by any positive accumulator), every relative drawdown
`(peak - c) / peak` lies in `[0, 1)`. -/
theorem cummaxAux_drawdown_bound (ys : List ℚ) : ∀ (acc : ℚ), 0 < acc →
    (∀ y ∈ ys, 0 < y) →
    ∀ d ∈ List.zipWith (fun pk c => (pk - c) / pk) (cummaxAux acc ys) ys,
      0 ≤ d ∧ d < 1 := by
  induction ys with
  | nil => intro acc _ _ d hd; simp [cummaxAux] at hd
  | cons y ys ih =>
    intro acc hacc hall d hd
    rw [cummaxAux, List.zipWith_cons_cons] at hd
    rcases List.mem_cons.mp hd with h | h
    · subst h
      have hy : 0 < y := hall y (by simp)
      have hmax : 0 < max acc y := lt_of_lt_of_le hy (le_max_right acc y)
      constructor
      · exact div_nonneg (by linarith [le_max_right acc y]) hmax.le
      · rw [div_lt_one hmax]; linarith
    · exact ih (max acc y) (lt_of_lt_of_le hacc (le_max_left acc y))
        (fun z hz => hall z (by simp [hz])) d h

/-- Every drawdown of a positive growth series lies in `[0, 1)`. -/
theorem drawdowns_bound (g : List ℚ) (hg : ∀ y ∈ g, 0 < y) :
    ∀ d ∈ drawdowns g, 0 ≤ d ∧ d < 1 := by
  match g with
  | [] => intro d hd; simp [drawdowns, cummax] at hd
  | c :: cs =>
    intro d hd
    have hc : 0 < c := hg c (by simp)
    rw [drawdowns, cummax, List.zipWith_cons_cons] at hd
    rcases List.mem_cons.mp hd with h | h
    · subst h
      constructor <;> simp [sub_self, zero_div]
    · exact cummaxAux_drawdown_bound cs c hc
        (fun z hz => hg z (by simp [hz])) d h

/-- A left fold of `max` over values in `[0, 1)` from a seed in `[0, 1)`
stays in `[0, 1)`. -/
theorem foldl_max_bound (xs : List ℚ) : ∀ (acc : ℚ), 0 ≤ acc → acc < 1 →
    (∀ x ∈ xs, 0 ≤ x ∧ x < 1) →
    0 ≤ List.foldl max acc xs ∧ List.foldl max acc xs < 1 := by
  induction xs with
  | nil => intro acc h0 h1 _; exact ⟨h0, h1⟩
  | cons x xs ih =>
    intro acc h0 h1 hall
    rw [List.foldl_cons]
    exact ih (max acc x) (le_trans h0 (le_max_left acc x))
      (max_lt h1 (hall x (by simp)).2) (fun z hz => hall z (by simp [hz]))

/-- The maximum of a nonempty series of values in `[0, 1)` is in `[0, 1)`. -/
theorem seriesMax_bound (l : List ℚ) (hne : l ≠ [])
    (hall : ∀ x ∈ l, 0 ≤ x ∧ x < 1) :
    0 ≤ seriesMax l ∧ seriesMax l < 1 := by
  match l with
  | [] => exact absurd rfl hne
  | x :: xs =>
    rw [seriesMax]
    exact foldl_max_bound xs x (hall x (by simp)).1 (hall x (by simp)).2
      (fun z hz => hall z (by simp [hz]))

/-- The cumulative product of a nonempty list is nonempty. -/
theorem cumprod_ne_nil (xs : List ℚ) (h : xs ≠ []) : cumprod xs ≠ [] := by
  match xs with
  | [] => exact absurd rfl h
  | x :: xs => simp [cumprod, cumprodAux]

/-- The drawdown series of a nonempty growth series is nonempty. -/
theorem drawdowns_ne_nil (g : List ℚ) (h : g ≠ []) : drawdowns g ≠ [] := by
  match g with
  | [] => exact absurd rfl h
  | c :: cs => simp [drawdowns, cummax, List.zipWith_cons_cons]

/-- C6: for any finite, strictly-positive price series (with at least one
return), the computed `max_drawdown` — the maximum of
`(peak - g) / peak` over the cumulative growth series `g` and its running
peak — satisfies `0 ≤ max_drawdown < 1`. -/
theorem max_drawdown_bound (sq : ℚ → ℚ) (ticker : String) (prices : List ℚ)
    (hpos : ∀ x ∈ prices, 0 < x) (hlen : 2 ≤ prices.length) :
    0 ≤ (calculate_risk_metrics sq ticker prices (pct_change prices)).max_drawdown ∧
    (calculate_risk_metrics sq ticker prices (pct_change prices)).max_drawdown < 1 := by
  have hmd : (calculate_risk_metrics sq ticker prices (pct_change prices)).max_drawdown
      = seriesMax (drawdowns (cumprod ((pct_change prices).map (fun r => r + 1)))) := rfl
  rw [hmd]
  have h1 : ∀ r ∈ pct_change prices, 0 < 1 + r := pct_change_one_add_pos prices hpos
  have hmap : ∀ y ∈ (pct_change prices).map (fun r => r + 1), 0 < y := by
    intro y hy
    obtain ⟨r, hr, rfl⟩ := List.mem_map.mp hy
    have := h1 r hr
    linarith
  have hgpos : ∀ y ∈ cumprod ((pct_change prices).map (fun r => r + 1)), 0 < y :=
    cumprodAux_pos _ 1 one_pos hmap
  have hrs_ne : pct_change prices ≠ [] := by
    have hl := pct_change_length prices
    intro hnil
    rw [hnil] at hl
    simp at hl
    omega
  have hg_ne : cumprod ((pct_change prices).map (fun r => r + 1)) ≠ [] := by
    apply cumprod_ne_nil
    simp [hrs_ne]
  exact seriesMax_bound _ (drawdowns_ne_nil _ hg_ne) (drawdowns_bound _ hgpos)

/-- Witness for C6 at the concrete positive price series `[1, 2, 1]`
(whose max drawdown is `1/2`). -/
theorem max_drawdown_bound_witness :
    0 ≤ (calculate_risk_metrics id "T" [1, 2, 1] (pct_change [1, 2, 1])).max_drawdown ∧
    (calculate_risk_metrics id "T" [1, 2, 1] (pct_change [1, 2, 1])).max_drawdown < 1 :=
  max_drawdown_bound id "T" [1, 2, 1] (by decide) (by decide)

/-- Sorting is invariant under permutation of the input: two permuted
lists have the same insertion sort. -/
theorem insertionSort_perm_eq (rs rs' : List ℚ) (h : rs.Perm rs') :
    rs.insertionSort (· ≤ ·) = rs'.insertionSort (· ≤ ·) :=
  List.eq_of_perm_of_sorted
    ((List.perm_insertionSort _ rs).trans (h.trans (List.perm_insertionSort _ rs').symm))
    (List.sorted_insertionSort _ rs) (List.sorted_insertionSort _ rs')

/-- The linear-interpolation percentile depends only on the multiset of
values, not on the order in which they appear. -/
theorem percentile_perm (rs rs' : List ℚ) (h : rs.Perm rs') (q : ℚ) :
    percentile rs q = percentile rs' q := by
  unfold percentile
  rw [insertionSort_perm_eq rs rs' h]

/-- C5: `var_95` is the 5th percentile and `var_99` the 1st percentile of
the return distribution, both computed by the one linear-interpolation
`percentile` function, and both independent of the order of the returns. -/
theorem var_percentiles (sq : ℚ → ℚ) (ticker : String) (data rs rs' : List ℚ)
    (h : rs.Perm rs') :
    (calculate_risk_metrics sq ticker data rs).var_95 = percentile rs 5 ∧
    (calculate_risk_metrics sq ticker data rs).var_99 = percentile rs 1 ∧
    percentile rs 5 = percentile rs' 5 ∧
    percentile rs 1 = percentile rs' 1 :=
  ⟨rfl, rfl, percentile_perm rs rs' h 5, percentile_perm rs rs' h 1⟩

/-- Witness for C5 at the concrete return series `[3, 1, 2]` and its
permutation `[2, 3, 1]`. -/
theorem var_percentiles_witness :
    (calculate_risk_metrics id "T" [] [3, 1, 2]).var_95 = percentile [3, 1, 2] 5 ∧
    (calculate_risk_metrics id "T" [] [3, 1, 2]).var_99 = percentile [3, 1, 2] 1 ∧
    percentile [3, 1, 2] 5 = percentile [2, 3, 1] 5 ∧
    percentile [3, 1, 2] 1 = percentile [2, 3, 1] 1 :=
  var_percentiles id "T" [] [3, 1, 2] [2, 3, 1] (by decide)

/-- The return series of a constant price series is identically zero. -/
theorem pct_change_replicate (c : ℚ) (hc : c ≠ 0) (n : ℕ) :
    pct_change (List.replicate n c) = List.replicate (n - 1) 0 := by
  match n with
  | 0 => rfl
  | 1 => rfl
  | (k + 2) =>
    have h2 := pct_change_replicate c hc (k + 1)
    rw [List.replicate_succ, List.replicate_succ, pct_change,
      ← List.replicate_succ, h2, div_self hc]
    simp [List.replicate_succ]

/-- The sample variance of an all-zero return series is zero. -/
theorem sampleVar_replicate_zero (n : ℕ) :
    sampleVar (List.replicate n 0) = 0 := by
  simp [sampleVar, mean, List.sum_replicate, List.map_replicate]

/-- C7: a constant price series of at least 31 points (all returns zero)
analyzes successfully — no division-by-zero — with zero volatility, zero
Sharpe ratio (the explicit guard), and risk level `LOW`. -/
theorem constant_prices_low_risk (sq : ℚ → ℚ) (hsq : sq 0 = 0) (c : ℚ)
    (hc : 0 < c) (ticker : String) (n : ℕ) (hn : 31 ≤ n) :
    ∃ m, analyze_stock sq ticker (List.replicate n c) = .ok m ∧
      m.volatility = 0 ∧ m.sharpe_ratio = 0 ∧ m.risk_level = "LOW" := by
  have hcne : c ≠ 0 := ne_of_gt hc
  have hrep := pct_change_replicate c hcne n
  have hvol : sq (sampleVar (pct_change (List.replicate n c))) * sq 252 = 0 := by
    rw [hrep, sampleVar_replicate_zero, hsq, zero_mul]
  have hdrl : determine_risk_level 0 = ("LOW", "low") := by decide
  have hne : (List.replicate n c).isEmpty = false := by
    obtain ⟨k, rfl⟩ : ∃ k, n = k + 1 := ⟨n - 1, by omega⟩
    rw [List.replicate_succ]
    rfl
  have hlen : ¬ (pct_change (List.replicate n c)).length < 30 := by
    rw [hrep, List.length_replicate]
    omega
  refine ⟨calculate_risk_metrics sq ticker (List.replicate n c)
      (pct_change (List.replicate n c)), ?_, ?_, ?_, ?_⟩
  · simp [analyze_stock, fetch_stock_data, calculate_returns, hne, hlen]
  · simpa [calculate_risk_metrics] using hvol
  · simp [calculate_risk_metrics, hvol]
  · simp [calculate_risk_metrics, hvol, hdrl]

/-- Witness for C7 at the concrete constant series of 31 points of price 2,
with the identity as square-root model (`id 0 = 0`). -/
theorem constant_prices_low_risk_witness :
    ∃ m, analyze_stock id "T" (List.replicate 31 (2 : ℚ)) = .ok m ∧
      m.volatility = 0 ∧ m.sharpe_ratio = 0 ∧ m.risk_level = "LOW" :=
  constant_prices_low_risk id rfl 2 (by decide) "T" 31 (by decide)

/-- A concrete high-volatility analysis result: prices `[1, 2, 1]`, whose
return series `pct_change [1, 2, 1] = [1, -1/2]` (sample variance `9/8`)
annualizes far above the `0.30` threshold, so `risk_level = "HIGH"` and
`risk_color = "high"`.  Used to exhibit the C8 divergence. -/
def highMetrics : RiskMetrics :=
  calculate_risk_metrics id "A" [1, 2, 1] (pct_change [1, 2, 1])

set_option maxRecDepth 100000 in
/-- C8: evaluation at the failing input.  For an analyzer-produced result
with risk level `HIGH`, `format_results` output contains `"Risk Level: "`
and contains `"HIGH"`, but does NOT contain the literal substring
`"Risk Level: HIGH"` — the color markup tag sits between them
(`"Risk Level: [color=#FF5252]HIGH[/color]"`).  Consequently the substring
dispatch of `ui.py` (`set_result_text`, lines 412-421) matches none of its
three patterns and falls through to the full text. -/
theorem format_results_risk_level_substring_bug :
    highMetrics.risk_level = "HIGH" ∧
    containsSub "Risk Level: " (format_results highMetrics) = true ∧
    containsSub "HIGH" (format_results highMetrics) = true ∧
    containsSub "Risk Level: HIGH" (format_results highMetrics) = false ∧
    set_result_text_simple (format_results highMetrics) = format_results highMetrics := by
  decide

/-- C9: `analyze_stock` is deterministic — two calls on the identical price
series return results whose nine fields are all equal. -/
theorem analyze_stock_deterministic (sq : ℚ → ℚ) (ticker : String)
    (prices : List ℚ) (m m' : RiskMetrics)
    (h : analyze_stock sq ticker prices = .ok m)
    (h' : analyze_stock sq ticker prices = .ok m') :
    m.ticker = m'.ticker ∧ m.current_price = m'.current_price ∧
    m.volatility = m'.volatility ∧ m.var_95 = m'.var_95 ∧
    m.var_99 = m'.var_99 ∧ m.max_drawdown = m'.max_drawdown ∧
    m.sharpe_ratio = m'.sharpe_ratio ∧ m.risk_level = m'.risk_level ∧
    m.risk_color = m'.risk_color := by
  have hmm : m = m' := Except.ok.inj (h.symm.trans h')
  subst hmm
  exact ⟨rfl, rfl, rfl, rfl, rfl, rfl, rfl, rfl, rfl⟩

/-- The metrics computed for a constant 31-point price series, used by the
witness of C9. -/
def detMetrics : RiskMetrics :=
  calculate_risk_metrics id "T" (List.replicate 31 (1 : ℚ))
    (pct_change (List.replicate 31 (1 : ℚ)))

/-- Witness for C9 at a concrete 31-point price series. -/
theorem analyze_stock_deterministic_witness :
    detMetrics.ticker = detMetrics.ticker ∧
    detMetrics.current_price = detMetrics.current_price ∧
    detMetrics.volatility = detMetrics.volatility ∧
    detMetrics.var_95 = detMetrics.var_95 ∧
    detMetrics.var_99 = detMetrics.var_99 ∧
    detMetrics.max_drawdown = detMetrics.max_drawdown ∧
    detMetrics.sharpe_ratio = detMetrics.sharpe_ratio ∧
    detMetrics.risk_level = detMetrics.risk_level ∧
    detMetrics.risk_color = detMetrics.risk_color :=
  analyze_stock_deterministic id "T" (List.replicate 31 1) detMetrics detMetrics rfl rfl

/-- C10: `get_formatted_analysis` is total (a Lean function returning a
string on every input, mirroring the catch-all `except` handler), and
whenever the underlying analysis fails it returns a string that begins
with `"ERROR ANALYZING "` followed by the uppercased ticker. -/
theorem get_formatted_analysis_error_format (sq : ℚ → ℚ) (ticker : String)
    (prices : List ℚ) (detailed : Bool) (e : AnalysisError)
    (h : analyze_stock sq ticker prices = .error e) :
    ("ERROR ANALYZING " ++ toUpperStr ticker).data
      <+: (get_formatted_analysis sq ticker prices detailed).data := by
  unfold get_formatted_analysis
  rw [h]
  exact ⟨_, (String.data_append _ _).symm⟩

/-- Witness for C10: the empty fetched series for ticker `"msft"` fails
with the no-data error and formats as an `ERROR ANALYZING MSFT` string. -/
theorem get_formatted_analysis_error_format_witness :
    ("ERROR ANALYZING " ++ toUpperStr "msft").data
      <+: (get_formatted_analysis id "msft" [] false).data :=
  get_formatted_analysis_error_format id "msft" [] false .noData rfl

end FinAlpha
